import Mathlib

/-!
Shallow embedding of the DealAnalyzer repository (python_modules/) in Lean 4.

Python floats are modelled as rationals (`ℚ`), Python `None`-able values as
`Option`, and Python strings either as Lean `String` (where only equality and
membership matter) or as lists of Unicode code points (`List ℕ`, where
character-level operations matter).  A Python function that can raise an
exception is modelled as returning `Option` (`none` = the call raises).
-/

namespace DealAnalyzer

/-- Mirror of the `Property` dataclass in `real_estate_data.py`.  Fields not
read by `analyze_deal` (bedrooms, bathrooms, ...) are carried along with the
same defaults as the dataclass. -/
structure Property where
  address : String := ""
  city : String := ""
  state : String := ""
  zip_code : String := ""
  property_type : String := ""
  purchase_price : ℚ := 0
  monthly_rent : ℚ := 0
  bedrooms : ℤ := 0
  bathrooms : ℚ := 0
  square_footage : ℤ := 0
  year_built : ℤ := 0
  description : String := ""
  listing_url : String := ""
  lot_size : Option ℤ := none
  image_urls : List String := []
  source_links : List (List (String × String)) := []
  downpayment_percentage : ℚ := 0.20
  closing_costs_percentage : ℚ := 0.05
  initial_fixed_costs_percentage : ℚ := 0.01
  maintenance_reserve_percentage : ℚ := 0.05
  adr : Option ℚ := none
  occupancy_rate : Option ℚ := none
  property_taxes : Option ℚ := none
  insurance : Option ℚ := none
  utilities : Option ℚ := none
  management : Option ℚ := none
  maintenance : Option ℚ := none
  cleaning : Option ℚ := none
  supplies : Option ℚ := none
  other_expenses : Option ℚ := none


/-- Mirror of the criteria dictionary produced by
`criteria_manager.load_investment_criteria`.  The core keys read
unconditionally by `analyze_deal` are plain fields; the four STR thresholds
are optional, mirroring the `"key" in criteria` membership tests in the
source. -/
structure Criteria where
  property_types : List String
  location : String
  max_purchase_price : ℚ
  downpayment_percentage_min : ℚ
  downpayment_percentage_max : ℚ
  closing_costs_percentage_min : ℚ
  closing_costs_percentage_max : ℚ
  initial_fixed_costs_percentage : ℚ
  maintenance_reserve_percentage : ℚ
  coc_benchmark_min : ℚ
  coc_benchmark_max : ℚ
  coc_minimum_min : ℚ
  coc_minimum_max : ℚ
  cap_benchmark_min : ℚ
  cap_benchmark_max : ℚ
  cap_minimum : ℚ
  str_adr_minimum : Option ℚ := none
  str_occupancy_rate_minimum : Option ℚ := none
  str_gross_yield_minimum : Option ℚ := none
  str_annual_revenue_minimum : Option ℚ := none


/-- Mirror of the `DealAnalysis` dataclass in `real_estate_data.py`. -/
structure DealAnalysis where
  property : Property
  calculated_downpayment : ℚ
  calculated_closing_costs : ℚ
  calculated_initial_fixed_costs : ℚ
  estimated_maintenance_reserve : ℚ
  total_cash_needed : ℚ
  passes_1_percent_rule : Bool
  cash_flow : ℚ
  cash_flow_positive : Bool
  coc_return : ℚ
  coc_meets_benchmark : Bool
  coc_meets_minimum : Bool
  cap_rate : ℚ
  cap_meets_benchmark : Bool
  cap_meets_minimum : Bool
  projected_annual_revenue : Option ℚ := none
  projected_gross_yield : Option ℚ := none
  total_monthly_expenses : Option ℚ := none
  str_net_income : Option ℚ := none
  str_meets_criteria : Option Bool := none
  meets_criteria : Bool := false


/-- `deal_analyzer.py` line 8: mean of the downpayment percentage range. -/
def downpaymentPercentage (c : Criteria) : ℚ :=
  (c.downpayment_percentage_min + c.downpayment_percentage_max) / 2

/-- `deal_analyzer.py` line 9: mean of the closing-costs percentage range. -/
def closingCostsPercentage (c : Criteria) : ℚ :=
  (c.closing_costs_percentage_min + c.closing_costs_percentage_max) / 2

/-- `deal_analyzer.py` line 13. -/
def calculatedDownpayment (p : Property) (c : Criteria) : ℚ :=
  p.purchase_price * downpaymentPercentage c

/-- `deal_analyzer.py` line 14. -/
def calculatedClosingCosts (p : Property) (c : Criteria) : ℚ :=
  p.purchase_price * closingCostsPercentage c

/-- `deal_analyzer.py` line 15. -/
def calculatedInitialFixedCosts (p : Property) (c : Criteria) : ℚ :=
  p.purchase_price * c.initial_fixed_costs_percentage

/-- `deal_analyzer.py` line 16. -/
def estimatedMaintenanceReserve (p : Property) (c : Criteria) : ℚ :=
  p.monthly_rent * c.maintenance_reserve_percentage

/-- `deal_analyzer.py` line 18. -/
def totalCashNeeded (p : Property) (c : Criteria) : ℚ :=
  calculatedDownpayment p c + calculatedClosingCosts p c + calculatedInitialFixedCosts p c

/-- `deal_analyzer.py` line 21: the 1% rule check. -/
def passes1PercentRule (p : Property) : Bool :=
  decide (p.monthly_rent ≥ p.purchase_price * 0.01)

/-- `deal_analyzer.py` line 25. -/
def loanAmount (p : Property) (c : Criteria) : ℚ :=
  p.purchase_price - calculatedDownpayment p c

/-- `deal_analyzer.py` lines 30-33: fixed-rate amortized payment with the
zero-rate straight-line guard. -/
def mortgagePayment (loan r : ℚ) (n : ℕ) : ℚ :=
  if r > 0 then
    loan * (r * (1 + r) ^ n) / ((1 + r) ^ n - 1)
  else
    loan / (n : ℚ)

/-- `deal_analyzer.py` lines 26-31: the payment as instantiated by
`analyze_deal` (annual rate 0.07, monthly rate 0.07/12, 30*12 payments). -/
def monthlyMortgagePayment (p : Property) (c : Criteria) : ℚ :=
  mortgagePayment (loanAmount p c) (0.07 / 12) 360

/-- `deal_analyzer.py` line 36. -/
def estimatedPropertyTax (p : Property) : ℚ :=
  p.purchase_price * 0.012 / 12

/-- `deal_analyzer.py` line 37. -/
def estimatedInsurance : ℚ := 100

/-- `deal_analyzer.py` line 38. -/
def estimatedVacancy (p : Property) : ℚ :=
  p.monthly_rent * 0.05

/-- `deal_analyzer.py` line 39. -/
def estimatedPropertyManagement (p : Property) : ℚ :=
  p.monthly_rent * 0.10

/-- `deal_analyzer.py` lines 41-48: the first (long-term-rental) binding of
`total_monthly_expenses`, used to compute `cash_flow` at line 50.  Note that
at line 92 the Python variable is rebound to `None`, so this sum is *not*
the value of the returned `total_monthly_expenses` field. -/
def totalMonthlyExpensesLtr (p : Property) (c : Criteria) : ℚ :=
  monthlyMortgagePayment p c + estimatedPropertyTax p + estimatedInsurance +
    estimatedVacancy p + estimatedMaintenanceReserve p c + estimatedPropertyManagement p

/-- `deal_analyzer.py` line 50. -/
def cashFlow (p : Property) (c : Criteria) : ℚ :=
  p.monthly_rent - totalMonthlyExpensesLtr p c

/-- `deal_analyzer.py` line 53. -/
def cashFlowPositive (p : Property) (c : Criteria) : Bool :=
  decide (cashFlow p c > 0)

/-- `deal_analyzer.py` lines 57-61: COC return with the
`total_cash_needed > 0` guard. -/
def cocReturn (p : Property) (c : Criteria) : ℚ :=
  if totalCashNeeded p c > 0 then cashFlow p c * 12 / totalCashNeeded p c else 0

/-- `deal_analyzer.py` line 63. -/
def cocMeetsBenchmark (p : Property) (c : Criteria) : Bool :=
  decide (cocReturn p c ≥ c.coc_benchmark_min) && decide (cocReturn p c ≤ c.coc_benchmark_max)

/-- `deal_analyzer.py` line 64: the "minimum" COC check is itself a two-sided
inclusive range. -/
def cocMeetsMinimum (p : Property) (c : Criteria) : Bool :=
  decide (cocReturn p c ≥ c.coc_minimum_min) && decide (cocReturn p c ≤ c.coc_minimum_max)

/-- `deal_analyzer.py` lines 70-77. -/
def annualOperatingExpenses (p : Property) (c : Criteria) : ℚ :=
  estimatedMaintenanceReserve p c * 12 + estimatedPropertyTax p * 12 +
    estimatedInsurance * 12 + estimatedVacancy p * 12 + estimatedPropertyManagement p * 12

/-- `deal_analyzer.py` line 79. -/
def netOperatingIncome (p : Property) (c : Criteria) : ℚ :=
  p.monthly_rent * 12 - annualOperatingExpenses p c

/-- `deal_analyzer.py` lines 81-84: cap rate with the `purchase_price > 0`
guard. -/
def capRate (p : Property) (c : Criteria) : ℚ :=
  if p.purchase_price > 0 then netOperatingIncome p c / p.purchase_price else 0

/-- `deal_analyzer.py` line 86. -/
def capMeetsBenchmark (p : Property) (c : Criteria) : Bool :=
  decide (capRate p c ≥ c.cap_benchmark_min) && decide (capRate p c ≤ c.cap_benchmark_max)

/-- `deal_analyzer.py` line 87: the cap-rate minimum is a one-sided floor. -/
def capMeetsMinimum (p : Property) (c : Criteria) : Bool :=
  decide (capRate p c ≥ c.cap_minimum)

/-- `deal_analyzer.py` lines 98-100. -/
def projectedAnnualRevenue (adrv occv : ℚ) : ℚ :=
  adrv * (365 * occv)

/-- `deal_analyzer.py` lines 103-104: `projected_gross_yield` keeps its
initial `None` when `purchase_price ≤ 0`. -/
def projectedGrossYield (p : Property) (adrv occv : ℚ) : Option ℚ :=
  if p.purchase_price > 0 then some (projectedAnnualRevenue adrv occv / p.purchase_price) else none

/-- Python `x if x else d` for an optional float `x`: the override is used
only when it is present *and* truthy (nonzero); `None` and `0.0` both fall
back to the default (`deal_analyzer.py` lines 107-114). -/
def truthyOr (x : Option ℚ) (d : ℚ) : ℚ :=
  match x with
  | some v => if v = 0 then d else v
  | none => d

/-- `deal_analyzer.py` lines 107-126: the STR re-computation of
`total_monthly_expenses`. -/
def strTotalMonthlyExpenses (p : Property) (c : Criteria) (adrv occv : ℚ) : ℚ :=
  monthlyMortgagePayment p c +
    truthyOr p.property_taxes (estimatedPropertyTax p) +
    truthyOr p.insurance estimatedInsurance +
    truthyOr p.utilities 150 +
    truthyOr p.management (projectedAnnualRevenue adrv occv * 0.15 / 12) +
    truthyOr p.maintenance (projectedAnnualRevenue adrv occv * 0.05 / 12) +
    truthyOr p.cleaning (75 * occv * 30) +
    truthyOr p.supplies 50 +
    truthyOr p.other_expenses 0

/-- `deal_analyzer.py` line 129. -/
def strNetIncome (p : Property) (c : Criteria) (adrv occv : ℚ) : ℚ :=
  projectedAnnualRevenue adrv occv / 12 - strTotalMonthlyExpenses p c adrv occv

/-- `deal_analyzer.py` lines 132-140: the sequential STR threshold checks.
The gross-yield comparison at line 137 compares `projected_gross_yield`
(which is still `None` when `purchase_price ≤ 0`) against a float, which in
Python 3 raises `TypeError`; that fault is modelled as `none`. -/
def strMeetsCriteriaCheck (c : Criteria) (adrv occv rev : ℚ) (gy : Option ℚ) : Option Bool :=
  let f1 : Bool := match c.str_adr_minimum with
    | some m => if adrv < m then false else true
    | none => true
  let f2 : Bool := match c.str_occupancy_rate_minimum with
    | some m => if occv < m then false else f1
    | none => f1
  let revFlag : Bool → Bool := fun f =>
    match c.str_annual_revenue_minimum with
    | some m => if rev < m then false else f
    | none => f
  match c.str_gross_yield_minimum, gy with
  | some m, some y => some (revFlag (if y < m then false else f2))
  | some _, none => none
  | none, _ => some (revFlag f2)

/-- `deal_analyzer.py` lines 143-151: the base conjunction of
`meets_criteria` before the optional STR conjunct. -/
def meetsCriteriaBase (p : Property) (c : Criteria) : Bool :=
  decide (p.property_type ∈ c.property_types) &&
    decide (p.state = c.location) &&
    decide (p.purchase_price ≤ c.max_purchase_price) &&
    passes1PercentRule p &&
    cashFlowPositive p c &&
    cocMeetsMinimum p c &&
    capMeetsMinimum p c

/-- The `DealAnalysis` record returned at `deal_analyzer.py` lines 157-179,
parameterized by the five STR-dependent fields and the final verdict. -/
def mkAnalysis (p : Property) (c : Criteria)
    (par pgy tme sni : Option ℚ) (smc : Option Bool) (mc : Bool) : DealAnalysis :=
  { property := p
    calculated_downpayment := calculatedDownpayment p c
    calculated_closing_costs := calculatedClosingCosts p c
    calculated_initial_fixed_costs := calculatedInitialFixedCosts p c
    estimated_maintenance_reserve := estimatedMaintenanceReserve p c
    total_cash_needed := totalCashNeeded p c
    passes_1_percent_rule := passes1PercentRule p
    cash_flow := cashFlow p c
    cash_flow_positive := cashFlowPositive p c
    coc_return := cocReturn p c
    coc_meets_benchmark := cocMeetsBenchmark p c
    coc_meets_minimum := cocMeetsMinimum p c
    cap_rate := capRate p c
    cap_meets_benchmark := capMeetsBenchmark p c
    cap_meets_minimum := capMeetsMinimum p c
    projected_annual_revenue := par
    projected_gross_yield := pgy
    total_monthly_expenses := tme
    str_net_income := sni
    str_meets_criteria := smc
    meets_criteria := mc }

/-- `deal_analyzer.py` `analyze_deal` (lines 4-179), with the criteria
dictionary passed as an argument.  Returns `none` exactly when the Python
function raises (the `None < float` comparison at line 137). -/
def analyzeDeal (p : Property) (c : Criteria) : Option DealAnalysis :=
  match p.adr, p.occupancy_rate with
  | some adrv, some occv =>
    let rev := projectedAnnualRevenue adrv occv
    let gy := projectedGrossYield p adrv occv
    match strMeetsCriteriaCheck c adrv occv rev gy with
    | none => none
    | some flag =>
      some (mkAnalysis p c (some rev) gy
        (some (strTotalMonthlyExpenses p c adrv occv))
        (some (strNetIncome p c adrv occv))
        (some flag)
        (meetsCriteriaBase p c && flag))
  | _, _ =>
    some (mkAnalysis p c none none none none none (meetsCriteriaBase p c))

end DealAnalyzer

namespace PyText

/-- Python strings are modelled as lists of Unicode code points. -/
abbrev Str := List ℕ

/-- Code points of a Lean string literal. -/
def ofString (s : String) : Str := s.data.map Char.toNat

/-- ASCII whitespace, as stripped by Python `str.strip()` / split by
`str.split()`: space, tab, newline, carriage return, vertical tab, form
feed. -/
def isSpace (c : ℕ) : Bool :=
  c = 32 || c = 9 || c = 10 || c = 13 || c = 11 || c = 12

/-- Python `str.lower()` restricted to ASCII letters. -/
def lowerChar (c : ℕ) : ℕ := if 65 ≤ c ∧ c ≤ 90 then c + 32 else c

/-- Python `str.lower()` on a whole string. -/
def lower (s : Str) : Str := s.map lowerChar

/-- Python `str.strip()`: drop whitespace from both ends. -/
def strip (s : Str) : Str :=
  ((s.dropWhile isSpace).reverse.dropWhile isSpace).reverse

/-- One character of Python `str.replace(" ", "-")`: space (32) becomes
hyphen (45). -/
def replChar (c : ℕ) : ℕ := if c = 32 then 45 else c

/-- Python `str.replace(" ", "-")`. -/
def replaceSpaceHyphen (s : Str) : Str := s.map replChar

/-- Python substring containment `pat in s`. -/
def hasSub (pat : Str) : Str → Bool
  | [] => pat.isEmpty
  | c :: rest => pat.isPrefixOf (c :: rest) || hasSub pat rest

/-- `email_parser.py` line 13: the single-family synonym list. -/
def sfSyn : List Str :=
  [ofString "sfr", ofString "sf", ofString "single family residential",
   ofString "single family", ofString "singlefamily"]

/-- `email_parser.py` line 15: the multi-family synonym list. -/
def mfSyn : List Str :=
  [ofString "mfr", ofString "mf", ofString "multi family residential",
   ofString "multifamily residential", ofString "multifamily", ofString "multi family"]

/-- `email_parser.py` line 21: the townhouse synonym list. -/
def thSyn : List Str := [ofString "townhouse", ofString "townhome", ofString "town home"]

/-- `email_parser.py` line 23: the condo synonym list. -/
def cdSyn : List Str := [ofString "condo", ofString "condominium"]

/-- `email_parser.py` line 25. -/
def dpSyn : List Str := [ofString "duplex"]

/-- `email_parser.py` line 27. -/
def tpSyn : List Str := [ofString "triplex"]

/-- `email_parser.py` line 29. -/
def fpSyn : List Str := [ofString "fourplex", ofString "4plex"]

/-- `email_parser.py` lines 13-33: the branch chain of
`normalize_property_type` applied to the already lowered-and-stripped
value. -/
def normalizeCore (normalized : Str) : Str :=
  if normalized ∈ sfSyn then ofString "single-family"
  else if normalized ∈ mfSyn then ofString "multi-family"
  else if hasSub (ofString "single") normalized && hasSub (ofString "family") normalized then
    ofString "single-family"
  else if hasSub (ofString "multi") normalized && hasSub (ofString "family") normalized then
    ofString "multi-family"
  else if normalized ∈ thSyn then ofString "townhouse"
  else if normalized ∈ cdSyn then ofString "condo"
  else if normalized ∈ dpSyn then ofString "duplex"
  else if normalized ∈ tpSyn then ofString "triplex"
  else if normalized ∈ fpSyn then ofString "fourplex"
  else replaceSpaceHyphen normalized

/-- `email_parser.py` lines 4-33: `normalize_property_type`.  An empty
(falsy) input yields the default `"single-family"`; otherwise the input is
lowered, stripped, and fed through the recognition chain. -/
def normalize_property_type (property_type : Str) : Str :=
  if property_type = [] then ofString "single-family"
  else normalizeCore (strip (lower property_type))

/-- `email_parser.py` lines 311-313: the description cap on the email path
(truncate to 497 characters and append `"..."`). -/
def emailDescClean (description : Str) : Str :=
  if description.length > 500 then description.take 497 ++ ofString "..." else description

/-- Accumulator-based word splitter implementing Python `str.split()` (split
on whitespace runs, dropping empty fields). -/
def wordsAux : Str → Str → List Str
  | [], cur => if cur = [] then [] else [cur.reverse]
  | c :: rest, cur =>
    if isSpace c then
      if cur = [] then wordsAux rest [] else cur.reverse :: wordsAux rest []
    else wordsAux rest (c :: cur)

/-- Python `str.split()` with no argument. -/
def pySplit (s : Str) : List Str := wordsAux s []

/-- Python `' '.join(ws)`. -/
def pyJoinSpace : List Str → Str
  | [] => []
  | [w] => w
  | w :: ws => w ++ 32 :: pyJoinSpace ws

/-- `file_parser.py` lines 104-106: the PDF-path description cleanup —
whitespace normalization via `' '.join(description.split())`, then
truncation to 500 characters with `"..."` appended *after* the cut. -/
def pdfDescClean (description : Str) : Str :=
  let d := pyJoinSpace (pySplit description)
  if d.length > 500 then d.take 500 ++ ofString "..." else d

end PyText

namespace DealAnalyzer

/-- A concrete criteria configuration matching the repository's
`investment_criteria.md` schema (STR thresholds absent). -/
def baseCriteria : Criteria :=
  { property_types := ["single-family", "multi-family"]
    location := "Tennessee"
    max_purchase_price := 300000
    downpayment_percentage_min := 0.15
    downpayment_percentage_max := 0.25
    closing_costs_percentage_min := 0.03
    closing_costs_percentage_max := 0.05
    initial_fixed_costs_percentage := 0.01
    maintenance_reserve_percentage := 0.05
    coc_benchmark_min := 0.10
    coc_benchmark_max := 0.12
    coc_minimum_min := 0.06
    coc_minimum_max := 0.08
    cap_benchmark_min := 0.08
    cap_benchmark_max := 0.10
    cap_minimum := 0.06 }

/-- `baseCriteria` with an STR gross-yield threshold configured. -/
def strCriteria : Criteria :=
  { baseCriteria with
      str_adr_minimum := some 150
      str_occupancy_rate_minimum := some 0.6
      str_gross_yield_minimum := some 0.1
      str_annual_revenue_minimum := some 40000 }

/-- Concrete property for the C1 witness. -/
def w1p : Property := {}

/-- The analysis record `analyzeDeal` yields on `w1p`/`baseCriteria`. -/
def w1a : DealAnalysis :=
  mkAnalysis w1p baseCriteria none none none none none (meetsCriteriaBase w1p baseCriteria)

/-- Concrete property for the C2 witness. -/
def w2p : Property := { purchase_price := 200000, monthly_rent := 2000 }

/-- The analysis record `analyzeDeal` yields on `w2p`/`baseCriteria`. -/
def w2a : DealAnalysis :=
  mkAnalysis w2p baseCriteria none none none none none (meetsCriteriaBase w2p baseCriteria)

/-- Concrete property for the C3 counterexample: STR data present, price 0. -/
def w3p : Property := { purchase_price := 0, adr := some 100, occupancy_rate := some 0.75 }

/-- Concrete property for the C4 witness (price 0, so both guards fire). -/
def w4p : Property := {}

/-- The analysis record `analyzeDeal` yields on `w4p`/`baseCriteria`. -/
def w4a : DealAnalysis :=
  mkAnalysis w4p baseCriteria none none none none none (meetsCriteriaBase w4p baseCriteria)

/-- Concrete property for the C5 witness. -/
def w5p : Property := { purchase_price := 150000, monthly_rent := 1600 }

/-- The analysis record `analyzeDeal` yields on `w5p`/`baseCriteria`. -/
def w5a : DealAnalysis :=
  mkAnalysis w5p baseCriteria none none none none none (meetsCriteriaBase w5p baseCriteria)

/-- Concrete property for the C6 witness: `adr` unset but every other STR
field set. -/
def w6p : Property :=
  { purchase_price := 100000, monthly_rent := 1200, adr := none, occupancy_rate := some 0.7,
    property_taxes := some 120, insurance := some 80, utilities := some 90 }

/-- Concrete property for the C7 counterexample and witness (no STR data). -/
def w7p : Property := { purchase_price := 100000, monthly_rent := 1000 }

/-- The analysis record `analyzeDeal` yields on `w7p`/`baseCriteria`. -/
def w7a : DealAnalysis :=
  mkAnalysis w7p baseCriteria none none none none none (meetsCriteriaBase w7p baseCriteria)

/-- Concrete property for the C8 counterexample: the `supplies` override is
present but `0.0`, hence falsy in Python. -/
def w8p : Property := { adr := some 100, occupancy_rate := some 0, supplies := some 0 }

/-- The first seven summands of the STR expense total at `w8p` (everything
up to the supplies term). -/
def c8base : ℚ :=
  monthlyMortgagePayment w8p baseCriteria + estimatedPropertyTax w8p + 100 + 150 +
    projectedAnnualRevenue 100 0 * 0.15 / 12 + projectedAnnualRevenue 100 0 * 0.05 / 12 +
    75 * 0 * 30

/-- Concrete property for the C8 witness (STR data, no overrides). -/
def w8q : Property := { adr := some 200, occupancy_rate := some 0.5 }

/-- The analysis record `analyzeDeal` yields on `w8q`/`baseCriteria`. -/
def w8a : DealAnalysis :=
  (analyzeDeal w8q baseCriteria).getD
    (mkAnalysis w8q baseCriteria none none none none none false)

end DealAnalyzer

namespace DealAnalyzer

/-- Inversion principle for `analyzeDeal`: a successful run is either the
STR-branch record or the plain record. -/
theorem analyzeDeal_some_cases (p : Property) (c : Criteria) (a : DealAnalysis)
    (h : analyzeDeal p c = some a) :
    (∃ adrv occv flag, p.adr = some adrv ∧ p.occupancy_rate = some occv ∧
      strMeetsCriteriaCheck c adrv occv (projectedAnnualRevenue adrv occv)
        (projectedGrossYield p adrv occv) = some flag ∧
      a = mkAnalysis p c (some (projectedAnnualRevenue adrv occv))
        (projectedGrossYield p adrv occv)
        (some (strTotalMonthlyExpenses p c adrv occv))
        (some (strNetIncome p c adrv occv)) (some flag)
        (meetsCriteriaBase p c && flag)) ∨
    ((p.adr = none ∨ p.occupancy_rate = none) ∧
      a = mkAnalysis p c none none none none none (meetsCriteriaBase p c)) := by
  rcases hA : p.adr with _ | adrv
  · right
    rcases hO : p.occupancy_rate with _ | occv <;>
      simp only [analyzeDeal, hA, hO, Option.some.injEq] at h <;>
      exact ⟨Or.inl rfl, h.symm⟩
  · rcases hO : p.occupancy_rate with _ | occv
    · right
      simp only [analyzeDeal, hA, hO, Option.some.injEq] at h
      exact ⟨Or.inr rfl, h.symm⟩
    · left
      simp only [analyzeDeal, hA, hO] at h
      rcases hS : strMeetsCriteriaCheck c adrv occv (projectedAnnualRevenue adrv occv)
          (projectedGrossYield p adrv occv) with _ | flag <;>
        rw [hS] at h
      · cases h
      · simp only [Option.some.injEq] at h
        exact ⟨adrv, occv, flag, rfl, rfl, hS, h.symm⟩

end DealAnalyzer

namespace DealAnalyzer

/-- C4: the division guards: `total_cash_needed ≤ 0` forces
`coc_return = 0.0` and `purchase_price ≤ 0` forces `cap_rate = 0.0`, both
total computations (no exception), and these are exactly the values the
returned `DealAnalysis` carries. -/
theorem c4_zero_guards (p : Property) (c : Criteria) :
    (totalCashNeeded p c ≤ 0 → cocReturn p c = 0) ∧
    (p.purchase_price ≤ 0 → capRate p c = 0) ∧
    ∀ a, analyzeDeal p c = some a →
      a.coc_return = cocReturn p c ∧ a.cap_rate = capRate p c := by
  refine ⟨fun h => ?_, fun h => ?_, fun a h => ?_⟩
  · simp [cocReturn, not_lt.mpr h]
  · simp [capRate, not_lt.mpr h]
  · rcases analyzeDeal_some_cases p c a h with ⟨adrv, occv, flag, hA, hO, hS, rfl⟩ | ⟨_, rfl⟩ <;>
      simp [mkAnalysis]

/-- C4 witness: at the all-zero property both guards fire and the returned
record carries the guarded zeros. -/
theorem c4_witness :
    totalCashNeeded w4p baseCriteria ≤ 0 ∧ cocReturn w4p baseCriteria = 0 ∧
    w4p.purchase_price ≤ 0 ∧ capRate w4p baseCriteria = 0 ∧
    analyzeDeal w4p baseCriteria = some w4a ∧
    w4a.coc_return = cocReturn w4p baseCriteria :=
  ⟨by norm_num [totalCashNeeded, calculatedDownpayment, calculatedClosingCosts,
      calculatedInitialFixedCosts, downpaymentPercentage, closingCostsPercentage,
      w4p, baseCriteria],
   (c4_zero_guards w4p baseCriteria).1 (by norm_num [totalCashNeeded, calculatedDownpayment,
      calculatedClosingCosts, calculatedInitialFixedCosts, downpaymentPercentage,
      closingCostsPercentage, w4p, baseCriteria]),
   by norm_num [w4p],
   (c4_zero_guards w4p baseCriteria).2.1 (by norm_num [w4p]), rfl,
   ((c4_zero_guards w4p baseCriteria).2.2 w4a rfl).1⟩

/-- C5: the COC minimum check is a two-sided inclusive range test while the
cap-rate minimum check is a one-sided inclusive floor, and those are the
booleans the returned record carries. -/
theorem c5_minimum_checks (p : Property) (c : Criteria) :
    (cocMeetsMinimum p c = true ↔
      c.coc_minimum_min ≤ cocReturn p c ∧ cocReturn p c ≤ c.coc_minimum_max) ∧
    (capMeetsMinimum p c = true ↔ c.cap_minimum ≤ capRate p c) ∧
    ∀ a, analyzeDeal p c = some a →
      a.coc_meets_minimum = cocMeetsMinimum p c ∧
      a.cap_meets_minimum = capMeetsMinimum p c ∧
      a.coc_return = cocReturn p c ∧ a.cap_rate = capRate p c := by
  refine ⟨?_, ?_, fun a h => ?_⟩
  · simp [cocMeetsMinimum, ge_iff_le, Bool.and_eq_true, decide_eq_true_eq]
  · simp [capMeetsMinimum, ge_iff_le, decide_eq_true_eq]
  · rcases analyzeDeal_some_cases p c a h with ⟨adrv, occv, flag, hA, hO, hS, rfl⟩ | ⟨_, rfl⟩ <;>
      simp [mkAnalysis]

/-- C5 witness: the two checks instantiated at a concrete record. -/
theorem c5_witness :
    (cocMeetsMinimum w5p baseCriteria = true ↔
      baseCriteria.coc_minimum_min ≤ cocReturn w5p baseCriteria ∧
      cocReturn w5p baseCriteria ≤ baseCriteria.coc_minimum_max) ∧
    (capMeetsMinimum w5p baseCriteria = true ↔
      baseCriteria.cap_minimum ≤ capRate w5p baseCriteria) ∧
    w5a.coc_meets_minimum = cocMeetsMinimum w5p baseCriteria ∧
    w5a.cap_meets_minimum = capMeetsMinimum w5p baseCriteria :=
  ⟨(c5_minimum_checks w5p baseCriteria).1, (c5_minimum_checks w5p baseCriteria).2.1,
   ((c5_minimum_checks w5p baseCriteria).2.2 w5a rfl).1,
   ((c5_minimum_checks w5p baseCriteria).2.2 w5a rfl).2.1⟩

/-- C6: when `adr` or `occupancy_rate` is unset the four STR output fields
are all `None`, whatever the other fields hold. -/
theorem c6_str_gating (p : Property) (c : Criteria)
    (h : p.adr = none ∨ p.occupancy_rate = none) :
    (analyzeDeal p c).map (fun a =>
      (a.projected_annual_revenue, a.projected_gross_yield,
       a.str_net_income, a.str_meets_criteria)) = some (none, none, none, none) := by
  rcases h with h | h
  · rcases hO : p.occupancy_rate with _ | occv <;> simp [analyzeDeal, h, hO, mkAnalysis]
  · rcases hA : p.adr with _ | adrv <;> simp [analyzeDeal, h, hA, mkAnalysis]

/-- C6 witness: a record with `occupancy_rate` set but `adr` unset still has
all four STR outputs `None`. -/
theorem c6_witness :
    (analyzeDeal w6p baseCriteria).map (fun a =>
      (a.projected_annual_revenue, a.projected_gross_yield,
       a.str_net_income, a.str_meets_criteria)) = some (none, none, none, none) :=
  c6_str_gating w6p baseCriteria (Or.inl rfl)

end DealAnalyzer

namespace DealAnalyzer

/-- C7 counterexample: on a plain long-term-rental record the returned
`total_monthly_expenses` field is `None`, not the step-7 expense sum the
claim asserts (the Python variable is rebound to `None` at line 92 before
the record is built). -/
theorem c7_counterexample :
    (analyzeDeal w7p baseCriteria).map (fun a => a.total_monthly_expenses) = some none ∧
    some (none : Option ℚ) ≠ some (some (totalMonthlyExpensesLtr w7p baseCriteria)) :=
  ⟨rfl, by simp⟩

/-- C7 (amended): the step-7 sum is used to compute `cash_flow`
(`cash_flow = rent - sum`), but the returned `total_monthly_expenses` field
is `None` for non-STR records and the recomputed STR expense sum for STR
records. -/
theorem c7_total_monthly_expenses_amended (p : Property) (c : Criteria) (a : DealAnalysis)
    (h : analyzeDeal p c = some a) :
    a.cash_flow = p.monthly_rent -
      (monthlyMortgagePayment p c + estimatedPropertyTax p + estimatedInsurance +
       estimatedVacancy p + estimatedMaintenanceReserve p c + estimatedPropertyManagement p) ∧
    ((p.adr = none ∨ p.occupancy_rate = none) → a.total_monthly_expenses = none) ∧
    (∀ adrv occv, p.adr = some adrv → p.occupancy_rate = some occv →
      a.total_monthly_expenses = some (strTotalMonthlyExpenses p c adrv occv)) := by
  rcases analyzeDeal_some_cases p c a h with ⟨adrv, occv, flag, hA, hO, hS, rfl⟩ | ⟨hno, rfl⟩
  · refine ⟨by simp [mkAnalysis, cashFlow, totalMonthlyExpensesLtr], ?_, ?_⟩
    · rintro (h' | h') <;> simp [hA, hO] at h'
    · intro adrv2 occv2 hA2 hO2
      rw [hA] at hA2
      rw [hO] at hO2
      obtain rfl := (Option.some.injEq _ _).mp hA2
      obtain rfl := (Option.some.injEq _ _).mp hO2
      simp [mkAnalysis]
  · refine ⟨by simp [mkAnalysis, cashFlow, totalMonthlyExpensesLtr], fun _ => by simp [mkAnalysis], ?_⟩
    intro adrv occv hA hO
    rcases hno with h' | h'
    · rw [h'] at hA; cases hA
    · rw [h'] at hO; cases hO

/-- C7 witness: the amended statement instantiated at a concrete non-STR
record. -/
theorem c7_witness :
    w7a.cash_flow = w7p.monthly_rent -
      (monthlyMortgagePayment w7p baseCriteria + estimatedPropertyTax w7p + estimatedInsurance +
       estimatedVacancy w7p + estimatedMaintenanceReserve w7p baseCriteria +
       estimatedPropertyManagement w7p) ∧
    w7a.total_monthly_expenses = none :=
  ⟨(c7_total_monthly_expenses_amended w7p baseCriteria w7a rfl).1,
   (c7_total_monthly_expenses_amended w7p baseCriteria w7a rfl).2.1 (Or.inl rfl)⟩

/-- C8 counterexample: at `w8p` the `supplies` override is present (`0.0`)
yet the STR expense total contains the derived default `50`, because the
source tests Python truthiness (`x if x else d`), not presence. -/
theorem c8_counterexample :
    w8p.supplies = some 0 ∧
    (analyzeDeal w8p baseCriteria).map (fun a => a.total_monthly_expenses) =
      some (some (c8base + 50 + 0)) ∧
    c8base + 50 + 0 ≠ c8base + 0 + 0 := by
  refine ⟨rfl, rfl, fun h => ?_⟩
  have h2 := add_left_cancel (add_right_cancel h)
  norm_num at h2

/-- C8 (amended): each STR monthly expense uses the user-supplied override
only when it is present *and nonzero*; a `None` or zero override falls back
to the derived default (utilities 150, management 15%/12 of revenue,
maintenance 5%/12 of revenue, cleaning 75·occupancy·30, supplies 50,
other 0, estimated tax/insurance), plus the step-5 mortgage payment. -/
theorem c8_str_expense_overrides_amended (p : Property) (c : Criteria) (a : DealAnalysis)
    (adrv occv : ℚ) (h : analyzeDeal p c = some a)
    (hA : p.adr = some adrv) (hO : p.occupancy_rate = some occv) :
    a.total_monthly_expenses = some (
      monthlyMortgagePayment p c +
      truthyOr p.property_taxes (estimatedPropertyTax p) +
      truthyOr p.insurance estimatedInsurance +
      truthyOr p.utilities 150 +
      truthyOr p.management (projectedAnnualRevenue adrv occv * 0.15 / 12) +
      truthyOr p.maintenance (projectedAnnualRevenue adrv occv * 0.05 / 12) +
      truthyOr p.cleaning (75 * occv * 30) +
      truthyOr p.supplies 50 +
      truthyOr p.other_expenses 0) := by
  rcases analyzeDeal_some_cases p c a h with ⟨adrv2, occv2, flag, hA2, hO2, hS, rfl⟩ | ⟨hno, rfl⟩
  · rw [hA] at hA2
    rw [hO] at hO2
    obtain rfl := (Option.some.injEq _ _).mp hA2
    obtain rfl := (Option.some.injEq _ _).mp hO2
    simp [mkAnalysis, strTotalMonthlyExpenses]
  · rcases hno with h' | h'
    · rw [h'] at hA; cases hA
    · rw [h'] at hO; cases hO

/-- C8 witness: the amended statement instantiated at a concrete STR record
with no overrides. -/
theorem c8_witness :
    analyzeDeal w8q baseCriteria = some w8a ∧
    w8a.total_monthly_expenses = some (
      monthlyMortgagePayment w8q baseCriteria +
      truthyOr w8q.property_taxes (estimatedPropertyTax w8q) +
      truthyOr w8q.insurance estimatedInsurance +
      truthyOr w8q.utilities 150 +
      truthyOr w8q.management (projectedAnnualRevenue 200 0.5 * 0.15 / 12) +
      truthyOr w8q.maintenance (projectedAnnualRevenue 200 0.5 * 0.05 / 12) +
      truthyOr w8q.cleaning (75 * 0.5 * 30) +
      truthyOr w8q.supplies 50 +
      truthyOr w8q.other_expenses 0) :=
  ⟨rfl, c8_str_expense_overrides_amended w8q baseCriteria w8a 200 0.5 rfl rfl rfl⟩

end DealAnalyzer

namespace DealAnalyzer

/-- C2: the mortgage payment used by `analyzeDeal` is the standard annuity
formula over `loan = price - calculated_downpayment` at monthly rate
`0.07/12` and 360 periods; at a zero periodic rate the guard instead yields
straight-line `loan / 360`; and the payment enters `cash_flow` through the
step-7 expense sum. -/
theorem c2_mortgage_payment_formula (p : Property) (c : Criteria) :
    monthlyMortgagePayment p c =
      loanAmount p c * ((0.07 / 12) * (1 + 0.07 / 12) ^ (360 : ℕ)) /
        ((1 + 0.07 / 12) ^ (360 : ℕ) - 1) ∧
    loanAmount p c = p.purchase_price - calculatedDownpayment p c ∧
    (∀ L : ℚ, mortgagePayment L 0 360 = L / 360) ∧
    (∀ a, analyzeDeal p c = some a →
      a.cash_flow = p.monthly_rent -
        (monthlyMortgagePayment p c + estimatedPropertyTax p + estimatedInsurance +
         estimatedVacancy p + estimatedMaintenanceReserve p c +
         estimatedPropertyManagement p)) := by
  refine ⟨?_, rfl, fun L => ?_, fun a h => ?_⟩
  · rw [monthlyMortgagePayment, mortgagePayment, if_pos (by norm_num)]
  · rw [mortgagePayment, if_neg (by norm_num)]
    norm_num
  · rcases analyzeDeal_some_cases p c a h with ⟨adrv, occv, flag, hA, hO, hS, rfl⟩ | ⟨_, rfl⟩ <;>
      simp [mkAnalysis, cashFlow, totalMonthlyExpensesLtr]

/-- C2 witness: the annuity-formula equation and the zero-rate guard
instantiated at a concrete record, with the hypothesis of the `cash_flow`
conjunct discharged. -/
theorem c2_witness :
    monthlyMortgagePayment w2p baseCriteria =
      loanAmount w2p baseCriteria * ((0.07 / 12) * (1 + 0.07 / 12) ^ (360 : ℕ)) /
        ((1 + 0.07 / 12) ^ (360 : ℕ) - 1) ∧
    mortgagePayment 720 0 360 = 2 ∧
    analyzeDeal w2p baseCriteria = some w2a ∧
    w2a.cash_flow = w2p.monthly_rent -
      (monthlyMortgagePayment w2p baseCriteria + estimatedPropertyTax w2p + estimatedInsurance +
       estimatedVacancy w2p + estimatedMaintenanceReserve w2p baseCriteria +
       estimatedPropertyManagement w2p) :=
  ⟨(c2_mortgage_payment_formula w2p baseCriteria).1,
   by rw [(c2_mortgage_payment_formula w2p baseCriteria).2.2.1 720]; norm_num,
   rfl,
   (c2_mortgage_payment_formula w2p baseCriteria).2.2.2 w2a rfl⟩

/-- C3 counterexample: a record with STR data and `purchase_price = 0`,
analyzed against criteria that configure `str_gross_yield_minimum`, makes
`analyze_deal` raise (`None < float` at line 137) instead of returning an
analysis. -/
theorem c3_counterexample : analyzeDeal w3p strCriteria = none := rfl

/-- C3 (amended): `analyze_deal` raises exactly when both `adr` and
`occupancy_rate` are present, `purchase_price ≤ 0`, and the criteria
configure `str_gross_yield_minimum`; in every other case it returns a fully
populated `DealAnalysis`. -/
theorem c3_no_raise_characterization (p : Property) (c : Criteria) :
    analyzeDeal p c = none ↔
      (p.adr ≠ none ∧ p.occupancy_rate ≠ none ∧ p.purchase_price ≤ 0 ∧
       c.str_gross_yield_minimum ≠ none) := by
  rcases hA : p.adr with _ | adrv
  · simp [analyzeDeal, hA]
  · rcases hO : p.occupancy_rate with _ | occv
    · simp [analyzeDeal, hA, hO]
    · simp only [analyzeDeal, hA, hO]
      rcases hG : c.str_gross_yield_minimum with _ | m
      · simp [strMeetsCriteriaCheck, hG]
      · by_cases hp : p.purchase_price > 0
        · simp [strMeetsCriteriaCheck, hG, projectedGrossYield, hp, not_le.mpr hp]
        · have hple : p.purchase_price ≤ 0 := not_lt.mp hp
          simp [strMeetsCriteriaCheck, hG, projectedGrossYield, hp, hple]

/-- C1: the overall verdict is the conjunction of the seven base conditions,
additionally conjoined with the STR verdict exactly when the STR branch ran
(both `adr` and `occupancy_rate` present); failure of any single condition
falsifies it. -/
theorem c1_meets_criteria_conjunction (p : Property) (c : Criteria) (a : DealAnalysis)
    (h : analyzeDeal p c = some a) :
    a.meets_criteria = true ↔
      (p.property_type ∈ c.property_types ∧ p.state = c.location ∧
       p.purchase_price ≤ c.max_purchase_price ∧
       p.monthly_rent ≥ p.purchase_price * 0.01 ∧
       a.cash_flow > 0 ∧ a.coc_meets_minimum = true ∧ a.cap_meets_minimum = true ∧
       ((p.adr ≠ none ∧ p.occupancy_rate ≠ none) → a.str_meets_criteria = some true)) := by
  rcases analyzeDeal_some_cases p c a h with ⟨adrv, occv, flag, hA, hO, hS, rfl⟩ | ⟨hno, rfl⟩
  · simp only [mkAnalysis, meetsCriteriaBase, passes1PercentRule, cashFlowPositive,
      Bool.and_eq_true, decide_eq_true_eq, ge_iff_le, gt_iff_lt, hA, hO, ne_eq,
      Option.some.injEq, reduceCtorEq, not_false_eq_true, and_self, forall_const]
    tauto
  · simp only [mkAnalysis, meetsCriteriaBase, passes1PercentRule, cashFlowPositive,
      Bool.and_eq_true, decide_eq_true_eq, ge_iff_le, gt_iff_lt, ne_eq]
    rcases hno with h' | h' <;> simp [h'] <;> tauto

/-- C1 witness: the verdict equivalence instantiated at a concrete record and
criteria. -/
theorem c1_witness :
    analyzeDeal w1p baseCriteria = some w1a ∧
    (w1a.meets_criteria = true ↔
      (w1p.property_type ∈ baseCriteria.property_types ∧ w1p.state = baseCriteria.location ∧
       w1p.purchase_price ≤ baseCriteria.max_purchase_price ∧
       w1p.monthly_rent ≥ w1p.purchase_price * 0.01 ∧
       w1a.cash_flow > 0 ∧ w1a.coc_meets_minimum = true ∧ w1a.cap_meets_minimum = true ∧
       ((w1p.adr ≠ none ∧ w1p.occupancy_rate ≠ none) → w1a.str_meets_criteria = some true))) :=
  ⟨rfl, c1_meets_criteria_conjunction w1p baseCriteria w1a rfl⟩

end DealAnalyzer

namespace PyText

/-- `wordsAux` on input without whitespace flushes the accumulator and the
rest as a single word. -/
theorem wordsAux_no_space (l : Str) (cur : Str) (h : ∀ c ∈ l, isSpace c = false) :
    wordsAux l cur = if cur.reverse ++ l = [] then [] else [cur.reverse ++ l] := by
  induction l generalizing cur with
  | nil => simp [wordsAux]
  | cons c rest ih =>
    have hc : isSpace c = false := h c (List.mem_cons_self c rest)
    rw [wordsAux, hc]
    simp only [Bool.false_eq_true, if_false]
    rw [ih (c :: cur) (fun x hx => h x (List.mem_cons_of_mem c hx))]
    simp

/-- Python `split()` of a nonempty whitespace-free string is that single
word. -/
theorem pySplit_no_space (l : Str) (hne : l ≠ []) (h : ∀ c ∈ l, isSpace c = false) :
    pySplit l = [l] := by
  rw [pySplit, wordsAux_no_space l [] h]
  simp [hne]

/-- C9 counterexample: on the PDF path a 501-character description (no
whitespace) is cleaned to a 503-character string — `"..."` is appended
*after* the 500-character cut, so the claimed 500-character cap is
violated. -/
theorem c9_counterexample : (pdfDescClean (List.replicate 501 97)).length = 503 := by
  have hne : (List.replicate 501 97 : Str) ≠ [] :=
    List.length_pos.mp (by rw [List.length_replicate]; norm_num)
  have hsp : pySplit (List.replicate 501 97) = [List.replicate 501 97] :=
    pySplit_no_space _ hne (fun c hc => by rw [List.eq_of_mem_replicate hc]; decide)
  have h3 : (ofString "...").length = 3 := rfl
  have hj : pyJoinSpace [List.replicate 501 97] = List.replicate 501 97 := rfl
  simp only [pdfDescClean, hsp, hj]
  rw [if_pos (by rw [List.length_replicate]; norm_num)]
  rw [List.length_append, List.length_take, List.length_replicate, h3]
  omega

/-- C9 (amended): the email path caps the description at 500 characters
(truncating to 497 and appending the `"..."` marker), but the PDF path
appends `"..."` after a 500-character cut, producing exactly 503 characters
whenever the whitespace-normalized text exceeds 500; the 500 cap holds only
on the email path. -/
theorem c9_description_cap_amended (d : Str) :
    (emailDescClean d).length ≤ 500 ∧
    (d.length > 500 → emailDescClean d = d.take 497 ++ ofString "...") ∧
    ((pyJoinSpace (pySplit d)).length ≤ 500 →
      pdfDescClean d = pyJoinSpace (pySplit d)) ∧
    ((pyJoinSpace (pySplit d)).length > 500 →
      pdfDescClean d = (pyJoinSpace (pySplit d)).take 500 ++ ofString "..." ∧
      (pdfDescClean d).length = 503) := by
  have h3 : (ofString "...").length = 3 := rfl
  refine ⟨?_, fun h => ?_, fun h => ?_, fun h => ?_⟩
  · by_cases h : d.length > 500
    · simp only [emailDescClean, if_pos h, List.length_append, List.length_take, h3]
      omega
    · simp only [emailDescClean, if_neg h]
      omega
  · simp [emailDescClean, h]
  · simp only [pdfDescClean]
    rw [if_neg (by omega)]
  · refine ⟨by simp only [pdfDescClean]; rw [if_pos h], ?_⟩
    simp only [pdfDescClean]
    rw [if_pos h]
    simp only [List.length_append, List.length_take, h3]
    omega

/-- C9 witness: both truncation paths instantiated at a concrete
501-character description. -/
theorem c9_witness :
    (List.replicate 501 97 : Str).length > 500 ∧
    emailDescClean (List.replicate 501 97) =
      (List.replicate 501 97 : Str).take 497 ++ ofString "..." ∧
    (emailDescClean (List.replicate 501 97)).length ≤ 500 ∧
    (pyJoinSpace (pySplit (List.replicate 501 97))).length > 500 ∧
    (pdfDescClean (List.replicate 501 97)).length = 503 := by
  have hrep : (List.replicate 501 97 : Str).length > 500 := by
    rw [List.length_replicate]; norm_num
  have hne : (List.replicate 501 97 : Str) ≠ [] := List.length_pos.mp (by omega)
  have hsp : pySplit (List.replicate 501 97) = [List.replicate 501 97] :=
    pySplit_no_space _ hne (fun c hc => by rw [List.eq_of_mem_replicate hc]; decide)
  have hj : pyJoinSpace [List.replicate 501 97] = List.replicate 501 97 := rfl
  have hlen : (pyJoinSpace (pySplit (List.replicate 501 97))).length > 500 := by
    rw [hsp, hj]; exact hrep
  exact ⟨hrep, (c9_description_cap_amended _).2.1 hrep,
    (c9_description_cap_amended _).1, hlen,
    ((c9_description_cap_amended _).2.2.2 hlen).2⟩

end PyText

namespace PyText

/-- Mapping a function that fixes every member of a list is the identity. -/
theorem map_id_of_mem {f : ℕ → ℕ} (l : List ℕ) (h : ∀ c ∈ l, f c = c) : l.map f = l := by
  induction l with
  | nil => rfl
  | cons c t ih =>
    rw [List.map_cons, h c (List.mem_cons_self c t),
      ih (fun x hx => h x (List.mem_cons_of_mem c hx))]

/-- ASCII lowering is idempotent. -/
theorem lowerChar_idem (c : ℕ) : lowerChar (lowerChar c) = lowerChar c := by
  unfold lowerChar
  split_ifs <;> omega

/-- Space-to-hyphen replacement preserves lowered characters. -/
theorem lowerChar_replChar (c : ℕ) (h : lowerChar c = c) :
    lowerChar (replChar c) = replChar c := by
  unfold replChar
  split_ifs with h32
  · norm_num [lowerChar]
  · exact h

/-- One replacement step is idempotent. -/
theorem replChar_replChar (c : ℕ) : replChar (replChar c) = replChar c := by
  unfold replChar
  split_ifs <;> omega

/-- `str.replace(" ", "-")` is idempotent. -/
theorem replaceSpaceHyphen_idem (s : Str) :
    replaceSpaceHyphen (replaceSpaceHyphen s) = replaceSpaceHyphen s := by
  unfold replaceSpaceHyphen
  rw [List.map_map]
  exact List.map_congr_left (fun c _ => replChar_replChar c)

/-- Replacement never produces whitespace from non-whitespace. -/
theorem isSpace_replChar (c : ℕ) (h : isSpace c = false) : isSpace (replChar c) = false := by
  unfold replChar
  split_ifs with h32
  · rw [h32] at h
    cases h
  · exact h

/-- The head of `dropWhile p` never satisfies `p`. -/
theorem head_dropWhile (p : ℕ → Bool) (l : List ℕ) :
    ∀ c, (l.dropWhile p).head? = some c → p c = false := by
  induction l with
  | nil => intro c h; cases h
  | cons a t ih =>
    intro c h
    rw [List.dropWhile_cons] at h
    by_cases ha : p a = true
    · rw [if_pos ha] at h
      exact ih c h
    · rw [if_neg ha] at h
      simp only [List.head?_cons, Option.some.injEq] at h
      subst h
      cases hpa : p a
      · rfl
      · exact absurd hpa ha

/-- `dropWhile p` is the identity when the head already fails `p`. -/
theorem dropWhile_eq_self_of_head (p : ℕ → Bool) (l : List ℕ)
    (h : ∀ c, l.head? = some c → p c = false) : l.dropWhile p = l := by
  cases l with
  | nil => rfl
  | cons a t =>
    have ha := h a rfl
    rw [List.dropWhile_cons, if_neg (by simp [ha])]

/-- `strip` is the identity on strings whose two ends are not whitespace. -/
theorem strip_eq_self (l : Str)
    (hh : ∀ c, l.head? = some c → isSpace c = false)
    (hl : ∀ c, l.reverse.head? = some c → isSpace c = false) :
    strip l = l := by
  unfold strip
  rw [dropWhile_eq_self_of_head isSpace l hh, dropWhile_eq_self_of_head isSpace l.reverse hl,
    List.reverse_reverse]

/-- Characters of the stripped string come from the original. -/
theorem mem_of_mem_strip (l : Str) (c : ℕ) (h : c ∈ strip l) : c ∈ l := by
  unfold strip at h
  rw [List.mem_reverse] at h
  have h1 := (List.dropWhile_suffix isSpace).subset h
  rw [List.mem_reverse] at h1
  exact (List.dropWhile_suffix isSpace).subset h1

/-- The first character of a stripped string is not whitespace. -/
theorem strip_head (l : Str) (c : ℕ) (h : (strip l).head? = some c) : isSpace c = false := by
  obtain ⟨pre, hpre⟩ := List.dropWhile_suffix (l := (List.dropWhile isSpace l).reverse) isSpace
  have hd1 : List.dropWhile isSpace l = strip l ++ pre.reverse := by
    have h2 := congrArg List.reverse hpre
    rw [List.reverse_append, List.reverse_reverse] at h2
    exact h2.symm
  obtain ⟨t0, ht0⟩ : ∃ t0, strip l = c :: t0 := by
    cases hsl : strip l with
    | nil => rw [hsl] at h; cases h
    | cons a t =>
      rw [hsl] at h
      simp only [List.head?_cons, Option.some.injEq] at h
      exact ⟨t, by rw [h]⟩
  have hcd : (List.dropWhile isSpace l).head? = some c := by
    rw [hd1, ht0]
    rfl
  exact head_dropWhile isSpace l c hcd

/-- The last character of a stripped string is not whitespace. -/
theorem strip_last (l : Str) (c : ℕ) (h : (strip l).reverse.head? = some c) :
    isSpace c = false := by
  unfold strip at h
  rw [List.reverse_reverse] at h
  exact head_dropWhile isSpace _ c h

end PyText

namespace PyText

/-- If the replaced string equals a hyphen-free string, the original already
equalled it (replacement only rewrites spaces into hyphens). -/
theorem map_repl_eq (n : Str) : ∀ e : Str, replaceSpaceHyphen n = e → (∀ c ∈ e, c ≠ 45) → n = e := by
  induction n with
  | nil =>
    intro e h _
    rw [← h]
    rfl
  | cons a t ih =>
    intro e h he
    cases e with
    | nil => simp [replaceSpaceHyphen] at h
    | cons b e2 =>
      simp only [replaceSpaceHyphen, List.map_cons, List.cons.injEq] at h
      obtain ⟨hab, ht⟩ := h
      have hb45 : b ≠ 45 := he b (List.mem_cons_self b e2)
      have hab2 : a = b := by
        by_cases ha : a = 32
        · rw [replChar, if_pos ha] at hab
          exact absurd hab.symm hb45
        · rw [replChar, if_neg ha] at hab
          exact hab
      rw [hab2, ih e2 ht (fun c hc => he c (List.mem_cons_of_mem b hc))]

/-- A hyphen-free pattern that prefixes the replaced string prefixes the
original. -/
theorem isPrefixOf_map_repl (pat : Str) (hp : ∀ c ∈ pat, c ≠ 45) :
    ∀ l : Str, pat.isPrefixOf (replaceSpaceHyphen l) = true → pat.isPrefixOf l = true := by
  induction pat with
  | nil => intro l _; cases l <;> rfl
  | cons p ps ih =>
    intro l h
    cases l with
    | nil => exact absurd h (by simp [replaceSpaceHyphen, List.isPrefixOf])
    | cons b t =>
      have h2 : (p == replChar b && ps.isPrefixOf (List.map replChar t)) = true := h
      rw [Bool.and_eq_true] at h2
      obtain ⟨hpb, hps⟩ := h2
      have hp45 := hp p (List.mem_cons_self p ps)
      have hpr : p = replChar b := by simpa using hpb
      have hpb2 : p = b := by
        by_cases hb : b = 32
        · rw [replChar, if_pos hb] at hpr
          exact absurd hpr hp45
        · rw [replChar, if_neg hb] at hpr
          exact hpr
      show (p == b && ps.isPrefixOf t) = true
      rw [Bool.and_eq_true]
      refine ⟨by rw [hpb2]; simp, ?_⟩
      exact ih (fun c hc => hp c (List.mem_cons_of_mem p hc)) t hps

/-- A hyphen-free pattern contained in the replaced string is contained in
the original. -/
theorem hasSub_map_repl (pat : Str) (hp : ∀ c ∈ pat, c ≠ 45) :
    ∀ l : Str, hasSub pat (replaceSpaceHyphen l) = true → hasSub pat l = true := by
  intro l
  induction l with
  | nil => exact fun h => h
  | cons b t ih =>
    intro h
    have h2 : (pat.isPrefixOf (replChar b :: List.map replChar t) ||
        hasSub pat (List.map replChar t)) = true := h
    rw [Bool.or_eq_true] at h2
    show (pat.isPrefixOf (b :: t) || hasSub pat t) = true
    rw [Bool.or_eq_true]
    rcases h2 with h2 | h2
    · exact Or.inl (isPrefixOf_map_repl pat hp (b :: t) h2)
    · exact Or.inr (ih h2)

/-- Membership of the replaced string in a hyphen-free synonym list
transfers back to the original string. -/
theorem mem_syn_transfer (L : List Str) (n : Str) (hL : ∀ e ∈ L, ∀ c ∈ e, c ≠ 45)
    (h : replaceSpaceHyphen n ∈ L) : n ∈ L := by
  rw [map_repl_eq n (replaceSpaceHyphen n) rfl (hL _ h)]
  exact h

/-- When no recognition branch fires, `normalizeCore` is the
space-to-hyphen fallback. -/
theorem normalizeCore_eq_fallback (m : Str)
    (h1 : m ∉ sfSyn) (h2 : m ∉ mfSyn)
    (h3 : ¬(hasSub (ofString "single") m && hasSub (ofString "family") m) = true)
    (h4 : ¬(hasSub (ofString "multi") m && hasSub (ofString "family") m) = true)
    (h5 : m ∉ thSyn) (h6 : m ∉ cdSyn) (h7 : m ∉ dpSyn) (h8 : m ∉ tpSyn) (h9 : m ∉ fpSyn) :
    normalizeCore m = replaceSpaceHyphen m := by
  unfold normalizeCore
  rw [if_neg h1, if_neg h2, if_neg h3, if_neg h4, if_neg h5, if_neg h6, if_neg h7,
    if_neg h8, if_neg h9]

/-- `normalizeCore` either returns one of the eight canonical tags or falls
back to space-to-hyphen replacement with every recognition test false. -/
theorem normalizeCore_cases (n : Str) :
    (normalizeCore n = ofString "single-family" ∨ normalizeCore n = ofString "multi-family" ∨
     normalizeCore n = ofString "townhouse" ∨ normalizeCore n = ofString "condo" ∨
     normalizeCore n = ofString "duplex" ∨ normalizeCore n = ofString "triplex" ∨
     normalizeCore n = ofString "fourplex") ∨
    (normalizeCore n = replaceSpaceHyphen n ∧
      n ∉ sfSyn ∧ n ∉ mfSyn ∧
      ¬(hasSub (ofString "single") n && hasSub (ofString "family") n) = true ∧
      ¬(hasSub (ofString "multi") n && hasSub (ofString "family") n) = true ∧
      n ∉ thSyn ∧ n ∉ cdSyn ∧ n ∉ dpSyn ∧ n ∉ tpSyn ∧ n ∉ fpSyn) := by
  unfold normalizeCore
  split_ifs with h1 h2 h3 h4 h5 h6 h7 h8 h9
  · exact Or.inl (Or.inl rfl)
  · exact Or.inl (Or.inr (Or.inl rfl))
  · exact Or.inl (Or.inl rfl)
  · exact Or.inl (Or.inr (Or.inl rfl))
  · exact Or.inl (Or.inr (Or.inr (Or.inl rfl)))
  · exact Or.inl (Or.inr (Or.inr (Or.inr (Or.inl rfl))))
  · exact Or.inl (Or.inr (Or.inr (Or.inr (Or.inr (Or.inl rfl)))))
  · exact Or.inl (Or.inr (Or.inr (Or.inr (Or.inr (Or.inr (Or.inl rfl))))))
  · exact Or.inl (Or.inr (Or.inr (Or.inr (Or.inr (Or.inr (Or.inr rfl))))))
  · exact Or.inr ⟨rfl, h1, h2, h3, h4, h5, h6, h7, h8, h9⟩

end PyText

namespace PyText

/-- C10 counterexample: the whitespace-only input `"  "` is truthy in
Python, lowers-and-strips to the empty string, and falls through to the
empty fallback; renormalizing that empty output yields the
`"single-family"` default, so the normalizer is not idempotent there. -/
theorem c10_counterexample :
    normalize_property_type (normalize_property_type (ofString "  ")) ≠
      normalize_property_type (ofString "  ") := by decide

/-- C10 (amended): the normalizer is idempotent on every input whose output
is nonempty — equivalently on every input that is not a nonempty string of
pure whitespace; every nonempty value it returns is a fixed point. -/
theorem c10_normalize_idempotent_amended (s : Str)
    (h : normalize_property_type s ≠ []) :
    normalize_property_type (normalize_property_type s) = normalize_property_type s := by
  by_cases hs : s = []
  · subst hs
    decide
  · have hm : normalize_property_type s = normalizeCore (strip (lower s)) := by
      rw [normalize_property_type, if_neg hs]
    rw [hm] at h ⊢
    rcases normalizeCore_cases (strip (lower s)) with hcan |
      ⟨hfal, h1, h2, h3, h4, h5, h6, h7, h8, h9⟩
    · rcases hcan with h' | h' | h' | h' | h' | h' | h' <;> rw [h'] <;> decide
    · rw [hfal] at h ⊢
      rw [normalize_property_type, if_neg h]
      have hlowered : ∀ c ∈ replaceSpaceHyphen (strip (lower s)), lowerChar c = c := by
        intro c hc
        simp only [replaceSpaceHyphen] at hc
        obtain ⟨x, hx, rfl⟩ := List.mem_map.mp hc
        have hx2 : x ∈ lower s := mem_of_mem_strip _ x hx
        simp only [lower] at hx2
        obtain ⟨y, _, rfl⟩ := List.mem_map.mp hx2
        exact lowerChar_replChar _ (lowerChar_idem y)
      have hlow : lower (replaceSpaceHyphen (strip (lower s))) =
          replaceSpaceHyphen (strip (lower s)) := map_id_of_mem _ hlowered
      have hhead : ∀ c, (replaceSpaceHyphen (strip (lower s))).head? = some c →
          isSpace c = false := by
        intro c hc
        simp only [replaceSpaceHyphen, List.head?_map] at hc
        cases hh : (strip (lower s)).head? with
        | none => rw [hh] at hc; cases hc
        | some c0 =>
          rw [hh] at hc
          simp only [Option.map_some', Option.some.injEq] at hc
          rw [← hc]
          exact isSpace_replChar c0 (strip_head (lower s) c0 hh)
      have hlast : ∀ c, (replaceSpaceHyphen (strip (lower s))).reverse.head? = some c →
          isSpace c = false := by
        intro c hc
        have hrev : (replaceSpaceHyphen (strip (lower s))).reverse =
            (strip (lower s)).reverse.map replChar := (List.map_reverse _ _).symm
        rw [hrev, List.head?_map] at hc
        cases hh : (strip (lower s)).reverse.head? with
        | none => rw [hh] at hc; cases hc
        | some c0 =>
          rw [hh] at hc
          simp only [Option.map_some', Option.some.injEq] at hc
          rw [← hc]
          exact isSpace_replChar c0 (strip_last (lower s) c0 hh)
      have hstrip : strip (replaceSpaceHyphen (strip (lower s))) =
          replaceSpaceHyphen (strip (lower s)) := strip_eq_self _ hhead hlast
      rw [hlow, hstrip]
      have t1 : replaceSpaceHyphen (strip (lower s)) ∉ sfSyn :=
        fun hmem => h1 (mem_syn_transfer sfSyn _ (by decide) hmem)
      have t2 : replaceSpaceHyphen (strip (lower s)) ∉ mfSyn :=
        fun hmem => h2 (mem_syn_transfer mfSyn _ (by decide) hmem)
      have t3 : ¬(hasSub (ofString "single") (replaceSpaceHyphen (strip (lower s))) &&
          hasSub (ofString "family") (replaceSpaceHyphen (strip (lower s)))) = true := by
        intro hb
        rw [Bool.and_eq_true] at hb
        refine h3 ?_
        rw [Bool.and_eq_true]
        exact ⟨hasSub_map_repl _ (by decide) _ hb.1, hasSub_map_repl _ (by decide) _ hb.2⟩
      have t4 : ¬(hasSub (ofString "multi") (replaceSpaceHyphen (strip (lower s))) &&
          hasSub (ofString "family") (replaceSpaceHyphen (strip (lower s)))) = true := by
        intro hb
        rw [Bool.and_eq_true] at hb
        refine h4 ?_
        rw [Bool.and_eq_true]
        exact ⟨hasSub_map_repl _ (by decide) _ hb.1, hasSub_map_repl _ (by decide) _ hb.2⟩
      have t5 : replaceSpaceHyphen (strip (lower s)) ∉ thSyn :=
        fun hmem => h5 (mem_syn_transfer thSyn _ (by decide) hmem)
      have t6 : replaceSpaceHyphen (strip (lower s)) ∉ cdSyn :=
        fun hmem => h6 (mem_syn_transfer cdSyn _ (by decide) hmem)
      have t7 : replaceSpaceHyphen (strip (lower s)) ∉ dpSyn :=
        fun hmem => h7 (mem_syn_transfer dpSyn _ (by decide) hmem)
      have t8 : replaceSpaceHyphen (strip (lower s)) ∉ tpSyn :=
        fun hmem => h8 (mem_syn_transfer tpSyn _ (by decide) hmem)
      have t9 : replaceSpaceHyphen (strip (lower s)) ∉ fpSyn :=
        fun hmem => h9 (mem_syn_transfer fpSyn _ (by decide) hmem)
      rw [normalizeCore_eq_fallback _ t1 t2 t3 t4 t5 t6 t7 t8 t9]
      exact replaceSpaceHyphen_idem _

/-- C10 witness: idempotence instantiated at an input that reaches the
fallback branch (canonical output `"mobile-home"`). -/
theorem c10_witness :
    normalize_property_type (ofString "Mobile Home") ≠ [] ∧
    normalize_property_type (normalize_property_type (ofString "Mobile Home")) =
      normalize_property_type (ofString "Mobile Home") :=
  ⟨by decide, c10_normalize_idempotent_amended _ (by decide)⟩

end PyText
